import Mathlib

/-!
Verification of the registration bot (`src/main.rs`).

The program is a single async function `register_hotkey` driving an infinite
polling loop. We embed it shallowly:

* machine integers (`u16`, `u32`, `u64`) become `Nat`; the only arithmetic the
  loop performs on them is comparison, `% 3`, and the `loop_count` increment,
  for which we keep the `u64` wrap-around explicit (`% 2 ^ 64`);
* the network client is an environment: each loop iteration is driven by an
  `IterInput` describing what the client returned (a fetch failure, or a block
  together with the submission / finalization outcomes the chain would give);
* logging becomes a list of `LogEntry` values carrying the severity level;
* the spawned finalization-watching task becomes a pure function from the
  finalization outcome to its log output (it captures only `result` and a copy
  of the block number, so it has no access to the scheduler's variables).
-/

namespace Regbot

/-- Log severity, mirroring the `info!` / `warn!` / `error!` macros used by the
program. -/
inductive LogLevel where
  | info
  | warn
  | error
  deriving Repr, DecidableEq

/-- One emitted log line: a severity and a message. -/
structure LogEntry where
  level : LogLevel
  msg : String
  deriving Repr, DecidableEq

/-- `RegistrationParams` (src/main.rs lines 17-42): the command-line / config
parameters.  `netuid : u16`, `max_cost : u64`, `slot : u32` become `Nat`. -/
structure RegistrationParams where
  coldkey : String
  hotkey : String
  netuid : Nat
  max_cost : Nat
  chain_endpoint : String
  slot : Nat
  deriving Repr, DecidableEq

/-- Default of the `max_cost` parameter (line 29: `default_value = "5000000000"`). -/
def default_max_cost : Nat := 5000000000

/-- Default of the `chain_endpoint` parameter (line 32). -/
def default_chain_endpoint : String := "wss://entrypoint-finney.opentensor.ai:443"

/-- Default of the `slot` parameter (line 40: `default_value = "0"`): the value
`slot` takes when the flag is absent from the configuration. -/
def default_slot : Nat := 0

/-- The scheduler's mutable loop state (lines 78-79):
`last_submitted_block : u32` and `loop_count : u64`. -/
structure SchedulerState where
  last_submitted_block : Nat
  loop_count : Nat
  deriving Repr, DecidableEq

/-- Initial state (lines 78-79): both counters start at `0`. -/
def initState : SchedulerState :=
  { last_submitted_block := 0, loop_count := 0 }

/-- The slot filter (lines 111-112): a block is eligible for submission when
`block_number % 3 == params.slot`.  The partition count `3` is fixed in the
code. -/
def eligible (block_number slot : Nat) : Bool :=
  block_number % 3 == slot

/-- The gating decision a loop iteration takes for a fetched block. -/
inductive Decision where
  | discard
  | skip
  | submit
  deriving Repr, DecidableEq

/-- The state update and gating decision of one loop iteration for a block
with number `block_number` (lines 104-124):

* line 105: `if block_number <= last_submitted_block { continue; }`;
* lines 111-120: slot mismatch updates `last_submitted_block` and skips;
* lines 123-124: slot match updates `last_submitted_block` and increments
  `loop_count` (a `u64` addition, hence the wrap), then submits. -/
def schedulerStep (params : RegistrationParams) (st : SchedulerState)
    (block_number : Nat) : SchedulerState × Decision :=
  if block_number ≤ st.last_submitted_block then
    (st, Decision.discard)
  else if eligible block_number params.slot then
    ({ last_submitted_block := block_number,
       loop_count := (st.loop_count + 1) % 2 ^ 64 }, Decision.submit)
  else
    ({ st with last_submitted_block := block_number }, Decision.skip)

/-- Iterated `schedulerStep` over a list of fetched block numbers, recording
each block's decision. -/
def runScheduler (params : RegistrationParams) :
    SchedulerState → List Nat → SchedulerState × List (Nat × Decision)
  | st, [] => (st, [])
  | st, b :: bs =>
    let s := schedulerStep params st b
    let r := runScheduler params s.1 bs
    (r.1, (b, s.2) :: r.2)

/-- The blocks that received a gating decision (passed the duplicate gate of
line 105): those whose decision is not `discard`. -/
def gatedBlocks (ds : List (Nat × Decision)) : List Nat :=
  (ds.filter (fun p => p.2 != Decision.discard)).map Prod.fst

/-- The blocks on which a registration attempt was made: decision `submit`. -/
def submittedBlocks (ds : List (Nat × Decision)) : List Nat :=
  (ds.filter (fun p => p.2 == Decision.submit)).map Prod.fst

/-- Does character list `hay` start with `needle`? (helper for substring
matching). -/
def startsWithCh : List Char → List Char → Bool
  | _, [] => true
  | [], _ :: _ => false
  | a :: as, b :: bs => a == b && startsWithCh as bs

/-- Does character list `hay` contain `needle` as a contiguous run? -/
def containsSubCh : List Char → List Char → Bool
  | [], needle => needle.isEmpty
  | hay@(_ :: t), needle => startsWithCh hay needle || containsSubCh t needle

/-- Rust `str::contains(sub)` on the formatted error text: substring test. -/
def errContains (e sub : String) : Bool :=
  containsSubCh e.data sub.data

/-- The error classes the spec's ErrorClassifier distinguishes. -/
inductive ErrClass where
  | Recoverable
  | AlreadyDone
  | Fatal
  deriving Repr, DecidableEq

/-- Classification of a submission-time error (lines 158-166): the formatted
error text is matched against the recoverable substrings; everything else
falls through to the `error!` branch (Fatal).  No AlreadyDone test is made at
submission time. -/
def classify_submit_error (e : String) : ErrClass :=
  if errContains e "TooManyConsumers"
      || errContains e "InvalidTransaction"
      || errContains e "Stale"
      || errContains e "nonce"
      || errContains e "outdated"
      || errContains e "Transaction is outdated" then
    ErrClass.Recoverable
  else
    ErrClass.Fatal

/-- Classification of a finalization-time error inside the spawned task
(lines 201-215): AlreadyDone substrings are tested first, then the recoverable
substrings, else Fatal. -/
def classify_finalization_error (e : String) : ErrClass :=
  if errContains e "AlreadyRegistered"
      || errContains e "already registered"
      || errContains e "duplicate" then
    ErrClass.AlreadyDone
  else if errContains e "TooManyConsumers"
      || errContains e "InvalidTransaction"
      || errContains e "Stale"
      || errContains e "nonce"
      || errContains e "outdated" then
    ErrClass.Recoverable
  else
    ErrClass.Fatal

/-- The log line emitted when `sign_and_submit_then_watch` returns an error
(lines 157-173): `warn!` for a recoverable match, `error!` otherwise. -/
def submit_error_log (e : String) : LogEntry :=
  if classify_submit_error e = ErrClass.Recoverable then
    { level := LogLevel.warn,
      msg := "Recoverable error detected, will retry on next matching slot: " ++ e }
  else
    { level := LogLevel.error, msg := "Transaction submission failed: " ++ e }

/-- The terminal outcome of `result.wait_for_finalized_success()` as observed
by the spawned task: success with the extrinsic hash, or a formatted error. -/
inductive FinalizationResult where
  | ok (extrinsic_hash : String)
  | err (e : String)
  deriving Repr, DecidableEq

/-- The outcome of `sign_and_submit_then_watch` (lines 151-176): a watchable
handle, or a synchronous error (formatted to a string on line 158). -/
inductive SubmitResult where
  | ok
  | err (e : String)
  deriving Repr, DecidableEq

/-- The spawned finalization-monitoring task (lines 184-225).  It captures
only the watch handle and a copy `block_num` of the block number, so its
entire observable behavior is the log lines it emits; it has no access to
`last_submitted_block` or `loop_count`. -/
def finalizationTracker (block_num : Nat) (r : FinalizationResult) :
    List LogEntry :=
  match r with
  | FinalizationResult.ok h =>
    [ { level := LogLevel.info,
        msg := "Block " ++ toString block_num ++ " wait_for_finalized_success took" },
      { level := LogLevel.info,
        msg := "Block " ++ toString block_num
          ++ " Registration successful! Extrinsic hash: " ++ h },
      { level := LogLevel.info,
        msg := "Registration completed! Bot continues attempting for next epoch opportunities..." } ]
  | FinalizationResult.err e =>
    match classify_finalization_error e with
    | ErrClass.AlreadyDone =>
      [ { level := LogLevel.warn,
          msg := "Block " ++ toString block_num
            ++ " Hotkey appears to be already registered: " ++ e } ]
    | ErrClass.Recoverable =>
      [ { level := LogLevel.warn,
          msg := "Block " ++ toString block_num
            ++ " Recoverable error during finalization: " ++ e } ]
    | ErrClass.Fatal =>
      [ { level := LogLevel.error,
          msg := "Block " ++ toString block_num ++ " Registration failed: " ++ e } ]

/-- What the environment (the network client) hands one loop iteration:
either the latest-block fetch failed (lines 93-98), or it produced a block
number together with the submission outcome the chain would give and, if the
submission is dispatched, the eventual finalization outcome its watcher would
see. -/
inductive IterInput where
  | fetchErr (e : String)
  | block (block_number : Nat) (sres : SubmitResult) (fres : FinalizationResult)
  deriving Repr, DecidableEq

/-- What a loop iteration does with control: proceed to the next iteration
(`continue` / falling off the end of the `loop` body) carrying the new state
and the emitted logs, or leave the loop with a result.  The Rust `loop` of
lines 88-228 contains no `break` and no `return`, so the embedding can only
produce `continueLoop`; `exitLoop` exists to make that fact a theorem rather
than a typing accident, and to host the spec-modelled single-shot variant
below. -/
inductive LoopOutcome where
  | continueLoop (st : SchedulerState) (logs : List LogEntry)
  | exitLoop (st : SchedulerState) (res : Except String Unit) (logs : List LogEntry)

/-- The scheduler state an outcome carries. -/
def outcomeState : LoopOutcome → SchedulerState
  | LoopOutcome.continueLoop st _ => st
  | LoopOutcome.exitLoop st _ _ => st

/-- One full iteration of the main loop (lines 88-228), with the spawned
tracker's log output (if a tracker is spawned) appended: the fetch-failure
path warns and continues; the duplicate path continues silently; the
slot-mismatch path logs and continues; the submit path logs, handles a
synchronous submission error by classifying and continuing (no tracker is
spawned on that path), and on a dispatched submission spawns the tracker and
continues immediately. -/
def loopBody (params : RegistrationParams) (st : SchedulerState)
    (input : IterInput) : LoopOutcome :=
  match input with
  | IterInput.fetchErr e =>
    LoopOutcome.continueLoop st
      [ { level := LogLevel.warn, msg := "Failed to fetch latest block: " ++ e } ]
  | IterInput.block block_number sres fres =>
    let s := schedulerStep params st block_number
    match s.2 with
    | Decision.discard => LoopOutcome.continueLoop s.1 []
    | Decision.skip =>
      LoopOutcome.continueLoop s.1
        [ { level := LogLevel.info,
            msg := "Skipping block " ++ toString block_number
              ++ ", waiting for slot " ++ toString params.slot } ]
    | Decision.submit =>
      let attempt : LogEntry :=
        { level := LogLevel.info,
          msg := "Slot " ++ toString params.slot
            ++ " - Attempting registration for block " ++ toString block_number }
      match sres with
      | SubmitResult.err e =>
        LoopOutcome.continueLoop s.1 [attempt, submit_error_log e]
      | SubmitResult.ok =>
        LoopOutcome.continueLoop s.1
          ([attempt, { level := LogLevel.info, msg := "sign_and_submit took" }]
            ++ finalizationTracker block_number fres)

/-- An sr25519 key pair as the program sees it: only the public bytes are ever
read (line 138 `hotkey.public()`); signing is the client's affair. -/
structure SrPair where
  publicBytes : List Nat
  deriving Repr, DecidableEq

/-- What the environment decides about the startup phase of `register_hotkey`
(lines 67-73): whether `OnlineClient::from_url` connects, and whether the two
`sr25519::Pair::from_string` parses succeed. -/
structure StartupEnv where
  connect : Except String Unit
  coldkey_parse : Option SrPair
  hotkey_parse : Option SrPair

/-- The external actions `register_hotkey` performs against the network. -/
inductive Effect where
  | connectTo (endpoint : String)
  | fetchBlock
  | submitTx
  deriving Repr, DecidableEq

/-- The startup phase of `register_hotkey` (lines 66-75), before the loop:
connect (the `?` on line 67 propagates a connection error), then parse the
coldkey (`map_err` to "Invalid coldkey", line 71), then the hotkey (`map_err`
to "Invalid hotkey", line 73).  Returns the parsed pair on success, and the
trace of external actions taken so far. -/
def register_hotkey_startup (params : RegistrationParams) (env : StartupEnv) :
    Except String (SrPair × SrPair) × List Effect :=
  match env.connect with
  | Except.error e => (Except.error e, [Effect.connectTo params.chain_endpoint])
  | Except.ok _ =>
    match env.coldkey_parse with
    | none => (Except.error "Invalid coldkey", [Effect.connectTo params.chain_endpoint])
    | some ck =>
      match env.hotkey_parse with
      | none => (Except.error "Invalid hotkey", [Effect.connectTo params.chain_endpoint])
      | some hk => (Except.ok (ck, hk), [Effect.connectTo params.chain_endpoint])

/-- The external actions one loop iteration performs: every iteration calls
`blocks().at_latest()` (a fetch, lines 93-98); an iteration whose gating
decision is `submit` additionally calls `sign_and_submit_then_watch`
(lines 151-154). -/
def iterEffects (params : RegistrationParams) (st : SchedulerState) :
    IterInput → List Effect
  | IterInput.fetchErr _ => [Effect.fetchBlock]
  | IterInput.block block_number _ _ =>
    if (schedulerStep params st block_number).2 = Decision.submit then
      [Effect.fetchBlock, Effect.submitTx]
    else
      [Effect.fetchBlock]

/-- The main loop run over a finite prefix of environment inputs, collecting
the external-action trace.  (The real loop is infinite; exhausting the input
list models the process still running.) -/
def runLoop (params : RegistrationParams) :
    SchedulerState → List IterInput → SchedulerState × List Effect
  | st, [] => (st, [])
  | st, i :: is =>
    let effs := iterEffects params st i
    let r := runLoop params (outcomeState (loopBody params st i)) is
    (r.1, effs ++ r.2)

/-- `register_hotkey` (lines 65-229) as a whole, over a finite prefix of
environment inputs: the startup phase short-circuits with its error before
the loop ever runs; otherwise the loop runs from the initial state.  An
`Except.ok` value models the process still running after the given inputs
(the function itself never returns `Ok` — its loop is infinite). -/
def register_hotkey_model (params : RegistrationParams) (env : StartupEnv)
    (inputs : List IterInput) : Except String Unit × List Effect :=
  let s := register_hotkey_startup params env
  match s.1 with
  | Except.error e => (Except.error e, s.2)
  | Except.ok _ => (Except.ok (), s.2 ++ (runLoop params initState inputs).2)

/-- Modelled from the spec: the deployment modes of section 4.6.  The source
under src/ holds only the continuous polling variant of the engine; the spec
(sections 1, 4.6 and 9) records that the repository's full source comprises
three variants of the same engine, one of which breaks its loop on the first
confirmed success.  That variant is not under src/, so its mode selection is
modelled here from the spec's words. -/
inductive DeploymentMode where
  | continuous
  | singleShot
  deriving Repr, DecidableEq

/-- Modelled from the spec: the loop body under a deployment-mode
configuration (spec section 4.6: continuous "keep racing every eligible
opportunity indefinitely"; single-shot "exit the loop on the first confirmed
successful finalization").  Continuous mode is exactly the loop body of
src/main.rs; single-shot mode differs only in that a dispatched submission
whose watcher confirms a successful finalization exits the loop with
success. -/
def loopBodyModed (mode : DeploymentMode) (params : RegistrationParams)
    (st : SchedulerState) (input : IterInput) : LoopOutcome :=
  match mode with
  | DeploymentMode.continuous => loopBody params st input
  | DeploymentMode.singleShot =>
    match input with
    | IterInput.block block_number SubmitResult.ok (FinalizationResult.ok h) =>
      let s := schedulerStep params st block_number
      match s.2 with
      | Decision.submit =>
        LoopOutcome.exitLoop s.1 (Except.ok ())
          [ { level := LogLevel.info,
              msg := "Registration successful! Extrinsic hash: " ++ h } ]
      | _ => loopBody params st input
    | _ => loopBody params st input

/-- A concrete configuration with every optional parameter at its default; in
particular the slot flag is absent, so `slot = default_slot`. -/
def sampleParams : RegistrationParams :=
  { coldkey := "//Alice", hotkey := "//Bob", netuid := 1,
    max_cost := default_max_cost, chain_endpoint := default_chain_endpoint,
    slot := default_slot }

/-- A concrete configuration whose slot value is out of the partition range
`[0, 3)`. -/
def sampleParams3 : RegistrationParams :=
  { sampleParams with slot := 3 }

/-- A concrete startup environment in which the endpoint is unreachable. -/
def sampleBadEnv : StartupEnv :=
  { connect := Except.error "unreachable",
    coldkey_parse := some { publicBytes := [0] },
    hotkey_parse := some { publicBytes := [1] } }

/-! ### Helper lemmas about the scheduler step and run -/

lemma step_last_le (p : RegistrationParams) (st : SchedulerState) (b : Nat) :
    st.last_submitted_block ≤ (schedulerStep p st b).1.last_submitted_block := by
  unfold schedulerStep
  split
  · exact Nat.le_refl _
  · split <;> simp <;> omega

lemma step_of_discard (p : RegistrationParams) (st : SchedulerState) (b : Nat)
    (h : b ≤ st.last_submitted_block) : schedulerStep p st b = (st, Decision.discard) := by
  unfold schedulerStep
  simp [h]

lemma step_not_discard (p : RegistrationParams) (st : SchedulerState) (b : Nat)
    (h : st.last_submitted_block < b) : (schedulerStep p st b).2 ≠ Decision.discard := by
  unfold schedulerStep
  have h1 : ¬ b ≤ st.last_submitted_block := by omega
  split
  · omega
  · split <;> simp

lemma step_last_of_gated (p : RegistrationParams) (st : SchedulerState) (b : Nat)
    (h : st.last_submitted_block < b) :
    (schedulerStep p st b).1.last_submitted_block = b := by
  unfold schedulerStep
  have h1 : ¬ b ≤ st.last_submitted_block := by omega
  simp only [h1, if_false]
  split <;> rfl

lemma run_last_le (p : RegistrationParams) :
    ∀ (bs : List Nat) (st : SchedulerState),
      st.last_submitted_block ≤ (runScheduler p st bs).1.last_submitted_block := by
  intro bs
  induction bs with
  | nil => intro st; exact Nat.le_refl _
  | cons b bs ih =>
    intro st
    simp only [runScheduler]
    exact Nat.le_trans (step_last_le p st b) (ih _)

lemma run_gated_lt (p : RegistrationParams) :
    ∀ (bs : List Nat) (st : SchedulerState) (x : Nat),
      x ∈ gatedBlocks (runScheduler p st bs).2 → st.last_submitted_block < x := by
  intro bs
  induction bs with
  | nil => intro st x hx; simp [runScheduler, gatedBlocks] at hx
  | cons b bs ih =>
    intro st x hx
    simp only [runScheduler] at hx
    by_cases hb : b ≤ st.last_submitted_block
    · rw [step_of_discard p st b hb] at hx
      simp [gatedBlocks, List.filter_cons] at hx
      exact ih st x (by simpa [gatedBlocks] using hx)
    · have hlt : st.last_submitted_block < b := by omega
      have hnd := step_not_discard p st b hlt
      simp only [gatedBlocks, List.filter_cons] at hx
      rw [if_pos (by simpa using hnd)] at hx
      simp only [List.map_cons, List.mem_cons] at hx
      rcases hx with rfl | hx
      · exact hlt
      · have := ih (schedulerStep p st b).1 x (by simpa [gatedBlocks] using hx)
        have h2 := step_last_of_gated p st b hlt
        omega

lemma run_gated_pairwise (p : RegistrationParams) :
    ∀ (bs : List Nat) (st : SchedulerState),
      (gatedBlocks (runScheduler p st bs).2).Pairwise (· < ·) := by
  intro bs
  induction bs with
  | nil => intro st; simp [runScheduler, gatedBlocks]
  | cons b bs ih =>
    intro st
    simp only [runScheduler]
    by_cases hb : b ≤ st.last_submitted_block
    · rw [step_of_discard p st b hb]
      simpa [gatedBlocks, List.filter_cons] using ih st
    · have hlt : st.last_submitted_block < b := by omega
      have hnd := step_not_discard p st b hlt
      simp only [gatedBlocks, List.filter_cons]
      rw [if_pos (by simpa using hnd)]
      simp only [List.map_cons, List.pairwise_cons]
      refine ⟨?_, by simpa [gatedBlocks] using ih (schedulerStep p st b).1⟩
      intro x hx
      have := run_gated_lt p bs (schedulerStep p st b).1 x (by simpa [gatedBlocks] using hx)
      have h2 := step_last_of_gated p st b hlt
      omega

lemma submitted_sublist_gated (ds : List (Nat × Decision)) :
    List.Sublist (submittedBlocks ds) (gatedBlocks ds) := by
  unfold submittedBlocks gatedBlocks
  refine List.Sublist.map _ (List.monotone_filter_right _ ?_)
  intro a ha
  rcases a with ⟨n, d⟩
  cases d <;> simp_all

lemma submittedBlocks_cons (x : Nat × Decision) (ds : List (Nat × Decision))
    (h : x.2 ≠ Decision.submit) : submittedBlocks (x :: ds) = submittedBlocks ds := by
  simp [submittedBlocks, List.filter_cons, h]

lemma loopBody_continues (p : RegistrationParams) (st : SchedulerState) (i : IterInput) :
    ∃ st2 logs, loopBody p st i = LoopOutcome.continueLoop st2 logs := by
  cases i with
  | fetchErr e => exact ⟨st, _, rfl⟩
  | block bn sres fres =>
    rcases hs : schedulerStep p st bn with ⟨st2, d⟩
    cases d <;> cases sres <;>
      (simp only [loopBody, hs]; exact ⟨_, _, rfl⟩)

lemma loopBody_state (p : RegistrationParams) (st : SchedulerState) (bn : Nat)
    (sres : SubmitResult) (fres : FinalizationResult) :
    outcomeState (loopBody p st (IterInput.block bn sres fres)) = (schedulerStep p st bn).1 := by
  rcases hs : schedulerStep p st bn with ⟨st2, d⟩
  cases d <;> cases sres <;> simp [loopBody, hs, outcomeState]

/-! ### Claim theorems -/

/-- C1: Partition exactness of the slot filter.  The loop submits exactly when
the block passed the duplicate gate and `block_number % 3 == slot` (the code
fixes the partition count at 3), and for every block sequence number `s`
exactly one partition index in `[0, 3)` makes `s` eligible to submit. -/
theorem slot_filter_partition_exact :
    (∀ (p : RegistrationParams) (st : SchedulerState) (b : Nat),
      (schedulerStep p st b).2 = Decision.submit ↔
        st.last_submitted_block < b ∧ eligible b p.slot = true) ∧
    (∀ s : Nat, ∃! i : Nat, i < 3 ∧ eligible s i = true) := by
  constructor
  · intro p st b
    unfold schedulerStep
    by_cases h1 : b ≤ st.last_submitted_block
    · have h2 : ¬ st.last_submitted_block < b := by omega
      simp [h1, h2]
    · by_cases h2 : eligible b p.slot
      · simp [h1, h2]
        omega
      · simp [h1, h2]
  · intro s
    refine ⟨s % 3, ⟨Nat.mod_lt s (by decide), by simp [eligible]⟩, ?_⟩
    rintro y ⟨hy, he⟩
    have hmod : s % 3 = y := by simpa [eligible] using he
    omega

/-- C2 counterexample: with the slot flag absent the configuration takes the
default slot value 0, and the newly observed block 1 (strictly greater than
the last processed sequence number 0) is not submitted: it is skipped, because
`1 % 3 ≠ 0`.  So a configuration without the partition-index parameter does
not make every newly observed block eligible. -/
theorem absent_slot_not_every_block :
    sampleParams.slot = default_slot ∧
    initState.last_submitted_block < 1 ∧
    (schedulerStep sampleParams initState 1).2 = Decision.skip := by
  decide

/-- C2 amended: when the partition-index parameter is absent from the
configuration it defaults to 0, and the scheduler then exhibits
partition-0 behavior, not single-partition behavior: a newly observed block
(sequence number greater than the last processed one) is submitted exactly
when its sequence number is divisible by 3, i.e. on every third block. -/
theorem absent_slot_every_third_block (p : RegistrationParams)
    (st : SchedulerState) (b : Nat)
    (hslot : p.slot = default_slot) (hb : st.last_submitted_block < b) :
    (schedulerStep p st b).2 = Decision.submit ↔ b % 3 = 0 := by
  unfold schedulerStep
  have h1 : ¬ b ≤ st.last_submitted_block := by omega
  by_cases h2 : b % 3 = 0
  · simp [h1, hslot, eligible, default_slot, h2]
  · simp [h1, hslot, eligible, default_slot, h2]

/-- C2 amended, witness: block 3 from the initial state under the default
configuration. -/
theorem absent_slot_every_third_block_witness :
    (schedulerStep sampleParams initState 3).2 = Decision.submit ↔ 3 % 3 = 0 :=
  absent_slot_every_third_block sampleParams initState 3 rfl (by decide)

/-- C4: Monotonicity of the scheduler state.  One iteration never decreases
`last_submitted_block`: the discard path leaves the whole state unchanged,
and the skip and submit paths set `last_submitted_block` to the strictly
greater block number; consequently `last_submitted_block` never decreases
across any run of the loop. -/
theorem last_submitted_block_monotone (p : RegistrationParams)
    (st : SchedulerState) (b : Nat) :
    st.last_submitted_block ≤ (schedulerStep p st b).1.last_submitted_block ∧
    ((schedulerStep p st b).1 = st ∨
      (st.last_submitted_block < b ∧
        (schedulerStep p st b).1.last_submitted_block = b)) ∧
    (∀ bs : List Nat,
      st.last_submitted_block ≤ (runScheduler p st bs).1.last_submitted_block) := by
  refine ⟨step_last_le p st b, ?_, fun bs => run_last_le p bs st⟩
  by_cases h1 : b ≤ st.last_submitted_block
  · left
    rw [step_of_discard p st b h1]
  · right
    have hlt : st.last_submitted_block < b := by omega
    exact ⟨hlt, step_last_of_gated p st b hlt⟩

/-- C9: a block with sequence number 0 is never processed.
`last_submitted_block` starts at 0 and the gate discards any block whose
number is at most the stored value, so (the value being a natural number that
never decreases) block 0 is discarded from every state, with no state change,
even though slot 0 would make sequence number 0 eligible. -/
theorem block_zero_never_processed :
    initState.last_submitted_block = 0 ∧
    eligible 0 default_slot = true ∧
    (∀ (p : RegistrationParams) (st : SchedulerState),
      schedulerStep p st 0 = (st, Decision.discard)) := by
  refine ⟨rfl, rfl, ?_⟩
  intro p st
  exact step_of_discard p st 0 (Nat.zero_le _)

/-- C3: Duplicate suppression.  In every run of the scheduler, each block
sequence number receives at most one gating decision and at most one
registration attempt; and feeding the sequence numbers `[50, 50, 51]` (from
the initial state, under any slot configuration) produces gating decisions
exactly for 50 and 51, the repeated 50 being discarded. -/
theorem dedup_at_most_one_gating_decision :
    (∀ (p : RegistrationParams) (st : SchedulerState) (bs : List Nat) (s : Nat),
      (gatedBlocks (runScheduler p st bs).2).count s ≤ 1 ∧
      (submittedBlocks (runScheduler p st bs).2).count s ≤ 1) ∧
    (∀ sl : Nat,
      gatedBlocks (runScheduler { sampleParams with slot := sl } initState
        [50, 50, 51]).2 = [50, 51]) := by
  constructor
  · intro p st bs s
    have hnd : (gatedBlocks (runScheduler p st bs).2).Nodup :=
      (run_gated_pairwise p bs st).nodup
    have hg : (gatedBlocks (runScheduler p st bs).2).count s ≤ 1 :=
      List.nodup_iff_count_le_one.mp hnd s
    exact ⟨hg, Nat.le_trans ((submitted_sublist_gated _).count_le s) hg⟩
  · intro sl
    by_cases h2 : (50 % 3 == sl) = true <;> by_cases h0 : (51 % 3 == sl) = true <;>
      simp [runScheduler, schedulerStep, eligible, h2, h0, gatedBlocks,
        List.filter_cons, initState]

/-- C5: Frame property of the finalization tracker.  The scheduler state an
iteration ends with does not depend on the outcome the spawned
confirmation task observes — it is exactly the state computed by the driver's
gating step, whether the tracked transaction finalizes successfully or fails;
only the driver loop changes `last_submitted_block` and `loop_count`. -/
theorem tracker_frame_scheduler_state (p : RegistrationParams)
    (st : SchedulerState) (bn : Nat) (sres : SubmitResult)
    (r1 r2 : FinalizationResult) :
    outcomeState (loopBody p st (IterInput.block bn sres r1)) =
      outcomeState (loopBody p st (IterInput.block bn sres r2)) ∧
    outcomeState (loopBody p st (IterInput.block bn sres r1)) =
      (schedulerStep p st bn).1 := by
  rw [loopBody_state p st bn sres r1, loopBody_state p st bn sres r2]
  exact ⟨rfl, rfl⟩

/-- C6: Submission-time error containment.  For every error returned by
transaction submission the loop iteration ends in `continue` (it never exits
the loop), and an error whose text contains "nonce" is classified Recoverable
and its log line is emitted at warning severity. -/
theorem submission_error_containment (p : RegistrationParams)
    (st : SchedulerState) (bn : Nat) (fres : FinalizationResult) (e : String) :
    (∃ st2 logs, loopBody p st (IterInput.block bn (SubmitResult.err e) fres) =
      LoopOutcome.continueLoop st2 logs) ∧
    (errContains e "nonce" = true →
      classify_submit_error e = ErrClass.Recoverable ∧
      (submit_error_log e).level = LogLevel.warn) := by
  constructor
  · exact loopBody_continues p st _
  · intro h
    have hc : classify_submit_error e = ErrClass.Recoverable := by
      unfold classify_submit_error
      simp [h]
    refine ⟨hc, ?_⟩
    simp [submit_error_log, hc]

/-- C6 witness: a concrete nonce-conflict error at block 3 from the initial
state. -/
theorem submission_error_containment_witness :
    (∃ st2 logs, loopBody sampleParams initState
        (IterInput.block 3 (SubmitResult.err "Priority too low: nonce conflict")
          (FinalizationResult.ok "0xabc")) =
      LoopOutcome.continueLoop st2 logs) ∧
    (classify_submit_error "Priority too low: nonce conflict" =
        ErrClass.Recoverable ∧
      (submit_error_log "Priority too low: nonce conflict").level =
        LogLevel.warn) :=
  ⟨(submission_error_containment sampleParams initState 3
      (FinalizationResult.ok "0xabc") "Priority too low: nonce conflict").1,
   (submission_error_containment sampleParams initState 3
      (FinalizationResult.ok "0xabc") "Priority too low: nonce conflict").2
      (by decide)⟩

/-- C7: Startup failures abort before the loop.  If connecting to the
endpoint fails, or the coldkey or the hotkey cannot be parsed,
`register_hotkey` returns an error, and its external-action trace contains no
block fetch and no transaction submission, whatever blocks the environment
would have supplied. -/
theorem startup_failure_aborts_before_loop (p : RegistrationParams)
    (env : StartupEnv) (inputs : List IterInput)
    (h : (∃ m, env.connect = Except.error m) ∨
      env.coldkey_parse = none ∨ env.hotkey_parse = none) :
    (∃ e, (register_hotkey_model p env inputs).1 = Except.error e) ∧
    Effect.fetchBlock ∉ (register_hotkey_model p env inputs).2 ∧
    Effect.submitTx ∉ (register_hotkey_model p env inputs).2 := by
  rcases hc : env.connect with m | u
  · refine ⟨⟨m, ?_⟩, ?_, ?_⟩ <;>
      simp [register_hotkey_model, register_hotkey_startup, hc]
  · rcases h with ⟨m, hm⟩ | hck | hhk
    · rw [hc] at hm
      exact absurd hm (by simp)
    · refine ⟨⟨"Invalid coldkey", ?_⟩, ?_, ?_⟩ <;>
        simp [register_hotkey_model, register_hotkey_startup, hc, hck]
    · rcases hck2 : env.coldkey_parse with _ | ck
      · refine ⟨⟨"Invalid coldkey", ?_⟩, ?_, ?_⟩ <;>
          simp [register_hotkey_model, register_hotkey_startup, hc, hck2]
      · refine ⟨⟨"Invalid hotkey", ?_⟩, ?_, ?_⟩ <;>
          simp [register_hotkey_model, register_hotkey_startup, hc, hck2, hhk]

/-- C7 witness: an unreachable endpoint, with a block available that would
otherwise be eligible. -/
theorem startup_failure_aborts_before_loop_witness :
    (∃ e, (register_hotkey_model sampleParams sampleBadEnv
        [IterInput.block 3 SubmitResult.ok (FinalizationResult.ok "0xdead")]).1 =
      Except.error e) ∧
    Effect.fetchBlock ∉ (register_hotkey_model sampleParams sampleBadEnv
      [IterInput.block 3 SubmitResult.ok (FinalizationResult.ok "0xdead")]).2 ∧
    Effect.submitTx ∉ (register_hotkey_model sampleParams sampleBadEnv
      [IterInput.block 3 SubmitResult.ok (FinalizationResult.ok "0xdead")]).2 :=
  startup_failure_aborts_before_loop sampleParams sampleBadEnv
    [IterInput.block 3 SubmitResult.ok (FinalizationResult.ok "0xdead")]
    (Or.inl ⟨"unreachable", rfl⟩)

/-- C8: Single-shot deployment mode exists (spec-modelled: the single-shot
variant of the engine is repository code not under src/).  Under the
single-shot configuration, an eligible block whose dispatched submission is
confirmed as a successful finalization exits the loop with success; under the
continuous configuration — the variant under src/ — every iteration
continues. -/
theorem single_shot_mode_exits_on_first_success (p : RegistrationParams)
    (st : SchedulerState) (bn : Nat) (h : String)
    (h1 : st.last_submitted_block < bn) (h2 : eligible bn p.slot = true) :
    (∃ st2 logs, loopBodyModed DeploymentMode.singleShot p st
        (IterInput.block bn SubmitResult.ok (FinalizationResult.ok h)) =
      LoopOutcome.exitLoop st2 (Except.ok ()) logs) ∧
    (∀ i : IterInput, ∃ st2 logs,
      loopBodyModed DeploymentMode.continuous p st i =
        LoopOutcome.continueLoop st2 logs) := by
  constructor
  · have hnot : ¬ bn ≤ st.last_submitted_block := by omega
    refine ⟨{ last_submitted_block := bn,
              loop_count := (st.loop_count + 1) % 2 ^ 64 },
            [ { level := LogLevel.info,
                msg := "Registration successful! Extrinsic hash: " ++ h } ], ?_⟩
    simp [loopBodyModed, schedulerStep, hnot, h2]
  · intro i
    simpa [loopBodyModed] using loopBody_continues p st i

/-- C8 witness: block 3 is eligible for slot 0 from the initial state. -/
theorem single_shot_mode_exits_on_first_success_witness :
    (∃ st2 logs, loopBodyModed DeploymentMode.singleShot sampleParams initState
        (IterInput.block 3 SubmitResult.ok (FinalizationResult.ok "0xbeef")) =
      LoopOutcome.exitLoop st2 (Except.ok ()) logs) ∧
    (∀ i : IterInput, ∃ st2 logs,
      loopBodyModed DeploymentMode.continuous sampleParams initState i =
        LoopOutcome.continueLoop st2 logs) :=
  single_shot_mode_exits_on_first_success sampleParams initState 3 "0xbeef"
    (by decide) (by decide)

/-- C10: the slot parameter is not validated against the partition count.
For every configured slot value at least 3, no block number satisfies
`block_number % 3 == slot`, so no iteration ever reaches the submit path, no
run ever records a registration attempt, and every iteration still continues
(the process keeps running). -/
theorem out_of_range_slot_never_submits (p : RegistrationParams)
    (hslot : 3 ≤ p.slot) :
    (∀ b : Nat, eligible b p.slot = false) ∧
    (∀ (st : SchedulerState) (b : Nat),
      (schedulerStep p st b).2 ≠ Decision.submit) ∧
    (∀ (st : SchedulerState) (bs : List Nat),
      submittedBlocks (runScheduler p st bs).2 = []) ∧
    (∀ (st : SchedulerState) (i : IterInput), ∃ st2 logs,
      loopBody p st i = LoopOutcome.continueLoop st2 logs) := by
  have hel : ∀ b : Nat, eligible b p.slot = false := by
    intro b
    have hb : b % 3 < 3 := Nat.mod_lt b (by decide)
    have hne : b % 3 ≠ p.slot := by omega
    simpa [eligible] using hne
  have hstep : ∀ (st : SchedulerState) (b : Nat),
      (schedulerStep p st b).2 ≠ Decision.submit := by
    intro st b
    unfold schedulerStep
    split
    · simp
    · rw [hel b]
      simp
  refine ⟨hel, hstep, ?_, fun st i => loopBody_continues p st i⟩
  intro st bs
  induction bs generalizing st with
  | nil => rfl
  | cons b bs ih =>
    simp only [runScheduler]
    rw [submittedBlocks_cons _ _ (hstep st b)]
    exact ih _

/-- C10 witness: slot 3 skips the eligible-looking blocks 3, 4, 5 and submits
nothing. -/
theorem out_of_range_slot_never_submits_witness :
    eligible 5 sampleParams3.slot = false ∧
    (schedulerStep sampleParams3 initState 5).2 ≠ Decision.submit ∧
    submittedBlocks (runScheduler sampleParams3 initState [3, 4, 5]).2 = [] ∧
    (∃ st2 logs, loopBody sampleParams3 initState (IterInput.fetchErr "boom") =
      LoopOutcome.continueLoop st2 logs) :=
  ⟨(out_of_range_slot_never_submits sampleParams3 (by decide)).1 5,
   (out_of_range_slot_never_submits sampleParams3 (by decide)).2.1 initState 5,
   (out_of_range_slot_never_submits sampleParams3 (by decide)).2.2.1 initState
     [3, 4, 5],
   (out_of_range_slot_never_submits sampleParams3 (by decide)).2.2.2 initState
     (IterInput.fetchErr "boom")⟩

end Regbot
